import Mathlib

/-
  Verification of the logwatcher repository (src/logwatcher).

  Shallow embedding notes:
  - Python strings are modelled as `List Char`; `str.upper()` is modelled as
    character-wise ASCII uppercasing (`Char.toUpper`), which agrees with
    Python on ASCII input (all level tokens are ASCII).
  - Python dicts with string keys are modelled as association lists or
    if-chains preserving the source insertion order.
  - Mutable nested dict objects (needed for the copy vs deepcopy distinction
    of `get_stats`) are modelled with an explicit address store.
  - Python floats in the configuration are modelled as rationals; the only
    operations the code performs on them are order comparisons.
  - Wall-clock timestamps (time.time) and the logging side channel are not
    modelled, except that log or stat emissions that the spec calls events
    (Rotated, Truncated, classified lines) appear in an explicit event trace.
-/

namespace Logwatcher

/-! ## ColorFormatter (src/logwatcher/formatter.py) -/

/-- The keys of `ColorFormatter.COLORS`, in dict insertion order
(ERROR, WARN, INFO, DEBUG) — the order `extract_level` iterates them. -/
def COLORS_keys : List (List Char) :=
  ["ERROR".toList, "WARN".toList, "INFO".toList, "DEBUG".toList]

/-- Python `str.upper()` restricted to ASCII (character-wise uppercasing). -/
def pyUpper (s : List Char) : List Char := s.map Char.toUpper

/-- Python `hay.find(needle)`: index of the leftmost occurrence of `needle`
in `hay`, `none` when absent (Python returns -1).  Python `needle in hay`
is `(strFind hay needle).isSome`. -/
def strFind (hay needle : List Char) : Option Nat :=
  if needle.isPrefixOf hay then some 0
  else
    match hay with
    | [] => none
    | _ :: t => (strFind t needle).map (fun i => i + 1)

/-- Python `s.lstrip(' :[]')`. -/
def lstripSeps (s : List Char) : List Char :=
  s.dropWhile (fun c => c == ' ' || c == ':' || c == '[' || c == ']')

/-- The `for level in self.COLORS: if level in line_upper` search of
`ColorFormatter.extract_level`: the first token of `keys` occurring in `up`,
together with `up.find(token)`. -/
def findLevelIn (up : List Char) : List (List Char) → Option (List Char × Nat)
  | [] => none
  | l :: ls =>
    match strFind up l with
    | some i => some (l, i)
    | none => findLevelIn up ls

/-- `ColorFormatter.extract_level`: uppercase the line, look for the first
COLORS key contained in it; if found at index i, the message is
`line_upper[i + len(level):].lstrip(' :[]')` (note: taken from the
UPPERCASED copy); otherwise return ("INFO", line). -/
def extract_level (line : List Char) : List Char × List Char :=
  let line_upper := pyUpper line
  match findLevelIn line_upper COLORS_keys with
  | some li => (li.1, lstripSeps (line_upper.drop (li.2 + li.1.length)))
  | none => ("INFO".toList, line)

/-- `ColorFormatter.LEVEL_PRIORITY` as an association list, in source order. -/
def LEVEL_PRIORITY : List (List Char × Nat) :=
  [("DEBUG".toList, 0), ("INFO".toList, 1), ("WARN".toList, 2), ("ERROR".toList, 3)]

/-- Python `dict.get(key, default)` over an association list. -/
def dictGet : List (List Char × Nat) → List Char → Nat → Nat
  | [], _, dflt => dflt
  | (k, v) :: rest, key, dflt => if key = k then v else dictGet rest key dflt

/-- `ColorFormatter.should_show`: detected level looked up with default 0,
minimum level looked up with default 3, compare with `>=`. -/
def should_show (detected_level min_level : List Char) : Bool :=
  decide (dictGet LEVEL_PRIORITY detected_level 0 ≥ dictGet LEVEL_PRIORITY min_level 3)

/-! ### Spec-side severity ranking (for the refinement claims C7/C10) -/

/-- The ordered severity enumeration of the spec
(DEBUG < INFO < WARN < ERROR); the configured minimum severity is one of
these four. -/
inductive SpecLevel
  | DEBUG
  | INFO
  | WARN
  | ERROR
deriving DecidableEq

/-- Spec rank: the ordinal position in \x7bDEBUG=0, INFO=1, WARN=2, ERROR=3\x7d. -/
def SpecLevel.rank : SpecLevel → Nat
  | .DEBUG => 0
  | .INFO => 1
  | .WARN => 2
  | .ERROR => 3

/-- The token of a spec severity, as the code spells it. -/
def SpecLevel.tok : SpecLevel → List Char
  | .DEBUG => "DEBUG".toList
  | .INFO => "INFO".toList
  | .WARN => "WARN".toList
  | .ERROR => "ERROR".toList

/-- Spec rank of a detected severity string: unknown severities rank as
DEBUG (0). -/
def specRankDetected (d : List Char) : Nat :=
  if d = "DEBUG".toList then 0
  else if d = "INFO".toList then 1
  else if d = "WARN".toList then 2
  else if d = "ERROR".toList then 3
  else 0

lemma dictGet_detected_eq_specRank (d : List Char) :
    dictGet LEVEL_PRIORITY d 0 = specRankDetected d := by
  simp [dictGet, LEVEL_PRIORITY, specRankDetected]

lemma dictGet_tok (m : SpecLevel) :
    dictGet LEVEL_PRIORITY m.tok 3 = m.rank := by
  cases m <;> simp [dictGet, LEVEL_PRIORITY, SpecLevel.tok, SpecLevel.rank]

lemma specRank_ge_three_iff (d : List Char) :
    3 ≤ specRankDetected d ↔ d = "ERROR".toList := by
  unfold specRankDetected
  split_ifs with h1 h2 h3 h4
  · simp [h1]
  · simp [h2]
  · simp [h3]
  · simp [h4]
  · exact iff_of_false (by omega) h4

end Logwatcher

namespace Logwatcher

/-! ## Theorems for claims C5, C6, C7, C10 -/

/-- C5: the spec scenario claims that the line "ERROR: db down" under
minimum severity WARN yields one delivered entry with severity ERROR and
message "db down" with the original character case preserved.  The code
delivers the entry with severity ERROR, but the message is "DB DOWN":
`extract_level` slices the message out of the uppercased copy of the line,
so the original case is NOT preserved. -/
theorem c5_extract_level_uppercases_message :
    extract_level "ERROR: db down".toList = ("ERROR".toList, "DB DOWN".toList)
    ∧ should_show "ERROR".toList "WARN".toList = true
    ∧ (extract_level "ERROR: db down".toList).2 ≠ "db down".toList := by
  refine ⟨by decide, by decide, by decide⟩

/-- C6: a line in which none of the four level tokens occurs (as a
substring of its uppercased form) is classified as severity INFO with the
message equal to the line verbatim. -/
theorem c6_no_token_defaults_info (line : List Char)
    (hE : strFind (pyUpper line) "ERROR".toList = none)
    (hW : strFind (pyUpper line) "WARN".toList = none)
    (hI : strFind (pyUpper line) "INFO".toList = none)
    (hD : strFind (pyUpper line) "DEBUG".toList = none) :
    extract_level line = ("INFO".toList, line) := by
  have hE' : strFind (pyUpper line) (['E','R','R','O','R']) = none := hE
  have hW' : strFind (pyUpper line) (['W','A','R','N']) = none := hW
  have hI' : strFind (pyUpper line) (['I','N','F','O']) = none := hI
  have hD' : strFind (pyUpper line) (['D','E','B','U','G']) = none := hD
  unfold extract_level
  simp [COLORS_keys, findLevelIn, hE', hW', hI', hD']

/-- Witness for C6 at the concrete spec scenario line "hello world". -/
theorem c6_no_token_defaults_info_witness :
    extract_level "hello world".toList = ("INFO".toList, "hello world".toList) :=
  c6_no_token_defaults_info "hello world".toList
    (by decide) (by decide) (by decide) (by decide)

/-- C7: for every detected severity string and every configured minimum
severity (one of DEBUG, INFO, WARN, ERROR), `should_show` returns true iff
rank(detected) ≥ rank(minimum), where ranks are DEBUG=0, INFO=1, WARN=2,
ERROR=3 and an unknown detected severity ranks as DEBUG (0).  The filter is
a total Lean function, so it never fails. -/
theorem c7_filter_correct (d : List Char) (m : SpecLevel) :
    should_show d m.tok = decide (specRankDetected d ≥ m.rank) := by
  unfold should_show
  rw [dictGet_detected_eq_specRank, dictGet_tok]

/-- C10: when the minimum level passed to `should_show` is not one of the
four known levels, its priority defaults to 3, so the filter passes exactly
the detected level ERROR. -/
theorem c10_unknown_minimum_filters_as_error (d m : List Char)
    (hD : m ≠ "DEBUG".toList) (hI : m ≠ "INFO".toList)
    (hW : m ≠ "WARN".toList) (hE : m ≠ "ERROR".toList) :
    should_show d m = true ↔ d = "ERROR".toList := by
  unfold should_show
  rw [dictGet_detected_eq_specRank]
  have hD' : m ≠ ['D','E','B','U','G'] := hD
  have hI' : m ≠ ['I','N','F','O'] := hI
  have hW' : m ≠ ['W','A','R','N'] := hW
  have hE' : m ≠ ['E','R','R','O','R'] := hE
  have hm : dictGet LEVEL_PRIORITY m 3 = 3 := by
    simp [dictGet, LEVEL_PRIORITY, hD', hI', hW', hE']
  rw [hm]
  simp only [ge_iff_le, decide_eq_true_eq]
  exact specRank_ge_three_iff d

/-- Witness for C10: minimum "TRACE" is unknown, so WARN is suppressed
(only ERROR would pass). -/
theorem c10_unknown_minimum_filters_as_error_witness :
    should_show "WARN".toList "TRACE".toList = true ↔ "WARN".toList = "ERROR".toList :=
  c10_unknown_minimum_filters_as_error "WARN".toList "TRACE".toList
    (by decide) (by decide) (by decide) (by decide)

end Logwatcher

namespace Logwatcher

/-! ## Watcher error-handling loop (src/logwatcher/watcher.py)

The scenario of the retry claims: the watched file exists at `start()` but
then becomes inaccessible and stays so.  Every poll cycle fails, but HOW
it fails depends on the state of the file handle:

- While `self._file` is still open, `os.path.getsize` inside
  `_read_new_data` raises an OSError, which `except (IOError, OSError)`
  catches, running `_handle_read_error`.
- A reopen attempt inside `_handle_read_error` first CLOSES the held
  handle (`_open_file` closes any previous handle before calling
  `open()`); the failing `open()` is caught and logged, leaving
  `self._file` a closed file object.
- On the next cycle, `self._file.tell()` on the closed handle raises
  ValueError, which `except (IOError, OSError)` does NOT catch: the loop
  is abandoned, the outer handler of `start()` sets state ERROR and
  re-raises, the `finally` clause runs `stop()`, and the exception
  propagates to the caller.

The loop state carries the watcher fields the retry policy touches, the
closed-flag of the held handle, and two trace counters: `reopen_attempts`
counts the `_open_file` calls made from `_handle_read_error` (all of them
failed attempts in this scenario) and `retry_waits` counts the
`time.sleep(retry_delay)` calls.  Wall-clock time is not modelled. -/

inductive WatcherState
  | STOPPED
  | RUNNING
  | PAUSED
  | ERROR
deriving DecidableEq

/-- The Python enum value strings of `WatcherState`. -/
def WatcherState.value : WatcherState → List Char
  | .STOPPED => "stopped".toList
  | .RUNNING => "running".toList
  | .PAUSED => "paused".toList
  | .ERROR => "error".toList

structure LoopState where
  state : WatcherState
  stop_requested : Bool
  retry_count : Nat
  errors_occurred : Nat
  reopen_attempts : Nat
  retry_waits : Nat
  file_closed : Bool
deriving DecidableEq

/-- How one run of the watch loop ends in the failing scenario:
`normal` — the while condition became false; `exception` — an exception
the inner `except (IOError, OSError)` does not catch escaped the loop
(the ValueError from `tell()` on the closed handle); `fuelOut` — model
artifact, the step bound ran out. -/
inductive LoopExit
  | normal
  | exception
  | fuelOut
deriving DecidableEq

/-- `LogWatcher._handle_read_error` in the failing scenario: bump
`errors_occurred`; when `restart_on_error`, increment the retry counter
FIRST and then compare it with `max_retries`: while
`retry_count < max_retries`, sleep `retry_delay` and attempt
`_open_file`.  The attempt closes the held handle before `open()` fails
(the failure is caught), so the handle is left CLOSED.  Otherwise set
state ERROR and request stop.  `max_retries` is a `Nat` here because
`validate` guarantees it is non-negative. -/
def handle_read_error (restart_on_error : Bool) (max_retries : Nat)
    (s : LoopState) : LoopState :=
  if restart_on_error then
    if s.retry_count + 1 < max_retries then
      { s with errors_occurred := s.errors_occurred + 1,
               retry_count := s.retry_count + 1,
               retry_waits := s.retry_waits + 1,
               reopen_attempts := s.reopen_attempts + 1,
               file_closed := true }
    else
      { s with errors_occurred := s.errors_occurred + 1,
               retry_count := s.retry_count + 1,
               state := WatcherState.ERROR, stop_requested := true }
  else { s with errors_occurred := s.errors_occurred + 1 }

/-- The `while not self._stop_requested and self._state == RUNNING` loop
of `LogWatcher.start` in the failing scenario.  While the handle is open,
the cycle raises an OSError that the inner handler catches, running
`_handle_read_error`; once the handle is closed, `self._file.tell()`
raises ValueError, which the inner handler does not catch, so the loop is
abandoned with `LoopExit.exception`.  `fuel` bounds the number of
iterations. -/
def run_failing_loop (restart_on_error : Bool) (max_retries : Nat) :
    Nat → LoopState → LoopState × LoopExit
  | 0, s => (s, LoopExit.fuelOut)
  | fuel + 1, s =>
    if s.stop_requested = true ∨ s.state ≠ WatcherState.RUNNING then
      (s, LoopExit.normal)
    else if s.file_closed = true then (s, LoopExit.exception)
    else run_failing_loop restart_on_error max_retries fuel
      (handle_read_error restart_on_error max_retries s)

/-- The loop state right after the preamble of `LogWatcher.start`
(state RUNNING, stop flag cleared, counters from `__init__`, handle
freshly opened). -/
def initLoopState : LoopState :=
  { state := WatcherState.RUNNING, stop_requested := false, retry_count := 0,
    errors_occurred := 0, reopen_attempts := 0, retry_waits := 0,
    file_closed := false }

/-- `LogWatcher.stop`: close the file, set the stop flag and
UNCONDITIONALLY set the state to STOPPED. -/
def stop_method (s : LoopState) : LoopState :=
  { s with stop_requested := true, state := WatcherState.STOPPED }

/-- The outcome of `LogWatcher.start`: the loop state at the moment the
`finally` clause runs (`before_stop`), the state after `stop()` ran
(`final`), and whether an exception propagated out of `start()` to the
caller (`raised`). -/
structure StartOutcome where
  before_stop : LoopState
  final : LoopState
  raised : Bool
deriving DecidableEq

/-- `LogWatcher.start` on the failing scenario: run the watch loop; if it
was abandoned by an exception the inner handler missed, the outer
`except Exception` sets state ERROR and re-raises; either way the
`finally` clause calls `stop()`. -/
def start_failing (restart_on_error : Bool) (max_retries fuel : Nat) :
    StartOutcome :=
  let r := run_failing_loop restart_on_error max_retries fuel initLoopState
  if r.2 = LoopExit.exception then
    { before_stop := { r.1 with state := WatcherState.ERROR },
      final := stop_method { r.1 with state := WatcherState.ERROR },
      raised := true }
  else
    { before_stop := r.1, final := stop_method r.1, raised := false }

lemma run_step_handle (r : Bool) (N fuel : Nat) (s : LoopState)
    (hg : ¬(s.stop_requested = true ∨ s.state ≠ WatcherState.RUNNING))
    (hc : ¬ s.file_closed = true) :
    run_failing_loop r N (fuel + 1) s =
      run_failing_loop r N fuel (handle_read_error r N s) := by
  simp only [run_failing_loop]
  rw [if_neg hg, if_neg hc]

lemma run_step_closed (r : Bool) (N fuel : Nat) (s : LoopState)
    (hg : ¬(s.stop_requested = true ∨ s.state ≠ WatcherState.RUNNING))
    (hc : s.file_closed = true) :
    run_failing_loop r N (fuel + 1) s = (s, LoopExit.exception) := by
  simp only [run_failing_loop]
  rw [if_neg hg, if_pos hc]

lemma run_step_exit (r : Bool) (N fuel : Nat) (s : LoopState)
    (hg : s.stop_requested = true ∨ s.state ≠ WatcherState.RUNNING) :
    run_failing_loop r N (fuel + 1) s = (s, LoopExit.normal) := by
  simp only [run_failing_loop]
  rw [if_pos hg]

/-- With `max_retries ≥ 2` the failing run makes exactly one reopen
attempt (closing the handle) on the first cycle and aborts on the second
cycle with the uncaught ValueError; the retry counter ends at 1. -/
lemma run_scenario_two_plus (N k : Nat) (hN : 2 ≤ N) :
    run_failing_loop true N (k + 2) initLoopState =
      ({ state := WatcherState.RUNNING, stop_requested := false,
         retry_count := 1, errors_occurred := 1, reopen_attempts := 1,
         retry_waits := 1, file_closed := true }, LoopExit.exception) := by
  have h1 : initLoopState.retry_count + 1 < N := by
    simp only [initLoopState]
    omega
  have hs1 : handle_read_error true N initLoopState =
      { state := WatcherState.RUNNING, stop_requested := false,
        retry_count := 1, errors_occurred := 1, reopen_attempts := 1,
        retry_waits := 1, file_closed := true } := by
    unfold handle_read_error
    rw [if_pos rfl, if_pos h1]
    rfl
  calc run_failing_loop true N (k + 1 + 1) initLoopState
      = run_failing_loop true N (k + 1) (handle_read_error true N initLoopState) :=
        run_step_handle true N (k + 1) initLoopState
          (by simp [initLoopState]) (by simp [initLoopState])
    _ = ({ state := WatcherState.RUNNING, stop_requested := false,
           retry_count := 1, errors_occurred := 1, reopen_attempts := 1,
           retry_waits := 1, file_closed := true }, LoopExit.exception) := by
        rw [hs1]
        exact run_step_closed true N k _ (by simp) rfl

/-- With `max_retries ≤ 1` the retry counter reaches `max_retries` on the
first failed cycle: no reopen attempt is made, the state is set to ERROR
and stop is requested, and the loop then exits normally. -/
lemma run_scenario_zero_one (N k : Nat) (hN : N ≤ 1) :
    run_failing_loop true N (k + 2) initLoopState =
      ({ state := WatcherState.ERROR, stop_requested := true,
         retry_count := 1, errors_occurred := 1, reopen_attempts := 0,
         retry_waits := 0, file_closed := false }, LoopExit.normal) := by
  have h1 : ¬ (initLoopState.retry_count + 1 < N) := by
    simp only [initLoopState]
    omega
  have hs1 : handle_read_error true N initLoopState =
      { state := WatcherState.ERROR, stop_requested := true,
        retry_count := 1, errors_occurred := 1, reopen_attempts := 0,
        retry_waits := 0, file_closed := false } := by
    unfold handle_read_error
    rw [if_pos rfl, if_neg h1]
    rfl
  calc run_failing_loop true N (k + 1 + 1) initLoopState
      = run_failing_loop true N (k + 1) (handle_read_error true N initLoopState) :=
        run_step_handle true N (k + 1) initLoopState
          (by simp [initLoopState]) (by simp [initLoopState])
    _ = ({ state := WatcherState.ERROR, stop_requested := true,
           retry_count := 1, errors_occurred := 1, reopen_attempts := 0,
           retry_waits := 0, file_closed := false }, LoopExit.normal) := by
        rw [hs1]
        exact run_step_exit true N k _ (Or.inl rfl)

end Logwatcher

namespace Logwatcher

/-! ## Theorems for claims C1 and C2 -/

/-- C1 counterexample: with max_retries = 2, restart_on_error enabled and
the watched file inaccessible throughout, the watcher performs exactly
ONE failed reopen attempt — not the two the claim states — before the
loop is abandoned: the failed `_open_file` leaves the handle closed, so
the next cycle's `tell()` raises a ValueError that
`except (IOError, OSError)` does not catch, and the outer handler sets
Errored.  The retry counter ends at 1, so it is also false that it is
incremented once per consecutive failed poll cycle. -/
theorem c1_counterexample :
    (run_failing_loop true 2 10 initLoopState).1.reopen_attempts = 1
    ∧ (run_failing_loop true 2 10 initLoopState).1.reopen_attempts ≠ 2
    ∧ (run_failing_loop true 2 10 initLoopState).1.retry_count = 1
    ∧ (run_failing_loop true 2 10 initLoopState).2 = LoopExit.exception
    ∧ (start_failing true 2 10).before_stop.state = WatcherState.ERROR := by
  decide

/-- C1 (amended): for every max_retries = N ≥ 2 with restart_on_error
enabled and the watched file inaccessible throughout, the watcher
performs exactly ONE failed reopen attempt, preceded by one retry_delay
wait, and the retry counter tops out at 1 (it is incremented only on the
first failed cycle): the failed reopen leaves the handle closed, the next
cycle's `tell()` raises an uncaught ValueError, the loop is abandoned and
the outer handler of `start` sets state Errored and re-raises to the
caller. -/
theorem c1_retry_bound (N fuel : Nat) (hN : 2 ≤ N) (hf : 2 ≤ fuel) :
    run_failing_loop true N fuel initLoopState =
      ({ state := WatcherState.RUNNING, stop_requested := false,
         retry_count := 1, errors_occurred := 1, reopen_attempts := 1,
         retry_waits := 1, file_closed := true }, LoopExit.exception)
    ∧ (start_failing true N fuel).before_stop.state = WatcherState.ERROR
    ∧ (start_failing true N fuel).raised = true := by
  obtain ⟨k, rfl⟩ : ∃ k, fuel = k + 2 := ⟨fuel - 2, by omega⟩
  have hrun := run_scenario_two_plus N k hN
  refine ⟨hrun, ?_, ?_⟩ <;> simp [start_failing, hrun]

/-- Witness for C1 (amended) at N = 2. -/
theorem c1_retry_bound_witness :
    2 ≤ 2 ∧ 2 ≤ 10 ∧
    (run_failing_loop true 2 10 initLoopState =
      ({ state := WatcherState.RUNNING, stop_requested := false,
         retry_count := 1, errors_occurred := 1, reopen_attempts := 1,
         retry_waits := 1, file_closed := true }, LoopExit.exception)
    ∧ (start_failing true 2 10).before_stop.state = WatcherState.ERROR
    ∧ (start_failing true 2 10).raised = true) :=
  ⟨by decide, by decide, c1_retry_bound 2 10 (by decide) (by decide)⟩

/-- C2 counterexample: with max_retries = 1 and the file inaccessible
throughout, the retry counter genuinely reaches max_retries (it ends at
1) and the watcher transitions to Errored and requests stop — yet after
the watch loop exits (`start` runs `stop()` in its `finally` clause) the
observable state is STOPPED, not ERROR, and the state string reported by
`get_stats` is identical to the one after a clean caller-requested stop:
the end states are NOT distinguishable. -/
theorem c2_counterexample :
    (start_failing true 1 10).before_stop.retry_count = 1
    ∧ (start_failing true 1 10).before_stop.state = WatcherState.ERROR
    ∧ (start_failing true 1 10).final.state = WatcherState.STOPPED
    ∧ (start_failing true 1 10).final.state ≠ WatcherState.ERROR
    ∧ WatcherState.value (start_failing true 1 10).final.state
        = WatcherState.value (stop_method initLoopState).state := by
  decide

/-- C2 (amended): in the inaccessible-throughout scenario the retry
counter reaches max_retries only when max_retries ≤ 1, and then the
watcher transitions to Errored and requests stop with the loop exiting
normally; with max_retries ≥ 2 the loop instead aborts on the uncaught
ValueError and the outer handler sets Errored, re-raising to the caller.
In both cases the state is Errored when the `finally` clause of `start`
runs, but `stop()` then unconditionally sets Stopped: after the watch
loop exits, the state observed via the state field / get_stats is
"stopped", indistinguishable from a clean caller-requested stop (for
max_retries ≥ 2 the propagated exception, not the state, is the only
caller-visible distinction). -/
theorem c2_errored_overwritten_by_stop (N fuel : Nat) (hf : 2 ≤ fuel) :
    (start_failing true N fuel).before_stop.state = WatcherState.ERROR
    ∧ (N ≤ 1 →
        (run_failing_loop true N fuel initLoopState).2 = LoopExit.normal
        ∧ (start_failing true N fuel).before_stop.retry_count = 1
        ∧ (start_failing true N fuel).raised = false)
    ∧ (2 ≤ N →
        (run_failing_loop true N fuel initLoopState).2 = LoopExit.exception
        ∧ (start_failing true N fuel).raised = true)
    ∧ (start_failing true N fuel).final.state = WatcherState.STOPPED
    ∧ WatcherState.value (start_failing true N fuel).final.state
        = WatcherState.value (stop_method initLoopState).state := by
  obtain ⟨k, rfl⟩ : ∃ k, fuel = k + 2 := ⟨fuel - 2, by omega⟩
  by_cases hN : 2 ≤ N
  · have hrun := run_scenario_two_plus N k hN
    refine ⟨?_, ?_, ?_, ?_, ?_⟩
    · simp [start_failing, hrun]
    · intro h
      exact absurd h (by omega)
    · intro h
      exact ⟨by rw [hrun], by simp [start_failing, hrun]⟩
    · simp [start_failing, hrun, stop_method]
    · simp [start_failing, hrun, stop_method, WatcherState.value]
  · have hrun := run_scenario_zero_one N k (by omega)
    refine ⟨?_, ?_, ?_, ?_, ?_⟩
    · simp [start_failing, hrun]
    · intro h
      refine ⟨by rw [hrun], ?_, ?_⟩ <;> simp [start_failing, hrun]
    · intro h
      exact absurd h hN
    · simp [start_failing, hrun, stop_method]
    · simp [start_failing, hrun, stop_method, WatcherState.value]

/-- Witness for C2 (amended) at N = 1 (the exhaustion path). -/
theorem c2_errored_overwritten_by_stop_witness :
    (start_failing true 1 10).before_stop.state = WatcherState.ERROR
    ∧ (1 ≤ 1 →
        (run_failing_loop true 1 10 initLoopState).2 = LoopExit.normal
        ∧ (start_failing true 1 10).before_stop.retry_count = 1
        ∧ (start_failing true 1 10).raised = false)
    ∧ (2 ≤ 1 →
        (run_failing_loop true 1 10 initLoopState).2 = LoopExit.exception
        ∧ (start_failing true 1 10).raised = true)
    ∧ (start_failing true 1 10).final.state = WatcherState.STOPPED
    ∧ WatcherState.value (start_failing true 1 10).final.state
        = WatcherState.value (stop_method initLoopState).state :=
  c2_errored_overwritten_by_stop 1 10 (by decide)

end Logwatcher

namespace Logwatcher

/-! ## Tail engine poll cycle (src/logwatcher/watcher.py)

One iteration of the body of the watch loop on the success path (no
IOError): the rotation check, `_open_file` after a detected rotation, and
`_read_new_data` with its truncation check, one `readline`, and
`_process_line`.  The file as seen by one poll cycle is a `FileView`:
its inode, its size, and its readline behaviour from a byte offset
(`readAt off = some (line, off2)` reads one line and leaves the handle at
`off2`; `none` means readline returned the empty string, as at end of
file).  Emissions that the spec calls events appear in the returned trace:
`Rotated` (the rotation log line and the `rotations_detected` increment),
`Truncated` (the truncation log line), `Classified` (a printed line). -/

inductive WEvent
  | Rotated
  | Truncated
  | Classified (level message : List Char)
deriving DecidableEq

structure LevelCounts where
  err : Nat
  warn : Nat
  info : Nat
  debug : Nat
deriving DecidableEq

/-- `self.stats["lines_by_level"][level] += 1` guarded by
`if level in self.stats["lines_by_level"]`. -/
def LevelCounts.bump (c : LevelCounts) (level : List Char) : LevelCounts :=
  if level = "ERROR".toList then { c with err := c.err + 1 }
  else if level = "WARN".toList then { c with warn := c.warn + 1 }
  else if level = "INFO".toList then { c with info := c.info + 1 }
  else if level = "DEBUG".toList then { c with debug := c.debug + 1 }
  else c

/-- The parts of a `LogWatcher` a poll cycle touches: the held inode, the
file position of the handle, the configured minimum level, and the stats
the cycle updates (timestamps are not modelled). -/
structure TailState where
  inode : Nat
  cursor : Nat
  min_level : List Char
  total_lines : Nat
  lines_by_level : LevelCounts
  rotations_detected : Nat
deriving DecidableEq

structure FileView where
  ino : Nat
  size : Nat
  readAt : Nat → Option (List Char × Nat)

/-- Python `line.rstrip(of newline and carriage return)`. -/
def pyRstripNl (s : List Char) : List Char :=
  (s.reverse.dropWhile (fun c => c == Char.ofNat 10 || c == Char.ofNat 13)).reverse

/-- `LogWatcher._process_line`: classify, filter, and if the line passes,
print it (the `Classified` event) and update the stats.  The stats update
happens only for lines that pass the filter. -/
def process_line (s : TailState) (line : List Char) : TailState × List WEvent :=
  let r := extract_level line
  if should_show r.1 s.min_level then
    ({ s with total_lines := s.total_lines + 1,
              lines_by_level := s.lines_by_level.bump r.1 },
     [WEvent.Classified r.1 r.2])
  else (s, [])

/-- `LogWatcher._read_new_data`: compare the handle position with the file
size; if position > size the file was truncated (log it, seek 0), else
seek to the current position (a no-op); then one `readline`, and the line,
if any, goes to `_process_line` with its line terminator stripped.  The
third component records the offset the readline started from. -/
def read_new_data (fv : FileView) (s : TailState) : TailState × List WEvent × Nat :=
  if fv.size < s.cursor then
    match fv.readAt 0 with
    | some lc =>
      let pr := process_line { s with cursor := lc.2 } (pyRstripNl lc.1)
      (pr.1, WEvent.Truncated :: pr.2, 0)
    | none => ({ s with cursor := 0 }, [WEvent.Truncated], 0)
  else
    match fv.readAt s.cursor with
    | some lc =>
      let pr := process_line { s with cursor := lc.2 } (pyRstripNl lc.1)
      (pr.1, pr.2, s.cursor)
    | none => (s, [], s.cursor)

/-- One iteration of the watch loop body on the success path: when
`follow_rotation` is set and the stat inode differs from the held one,
log the rotation, bump `rotations_detected` and rerun `_open_file` (which
seeks to the end of the NEW file and records its inode); then
`_read_new_data`. -/
def pollCycle (follow_rotation : Bool) (fv : FileView) (s : TailState) :
    TailState × List WEvent × Nat :=
  let s1e :=
    if follow_rotation && (fv.ino != s.inode) then
      ({ s with rotations_detected := s.rotations_detected + 1,
                inode := fv.ino, cursor := fv.size }, [WEvent.Rotated])
    else (s, ([] : List WEvent))
  let r := read_new_data fv s1e.1
  (r.1, s1e.2 ++ r.2.1, r.2.2)

lemma process_line_no_truncated (s : TailState) (line : List Char) :
    (process_line s line).2.count WEvent.Truncated = 0 := by
  unfold process_line
  by_cases h : should_show (extract_level line).1 s.min_level = true
  · simp [h]
  · simp [h]

end Logwatcher

namespace Logwatcher

/-! ## Theorems for claims C3 and C4 -/

/-- C3: when the inode of the watched path differs from the held one
(rotation) and `follow_rotation` is on, the poll cycle emits exactly one
Rotated event and nothing else — in particular no line of the new file is
classified in that cycle — and reopens the file with the held inode set to
the new inode and the cursor at end of file of the new file.  The
hypothesis `fv.readAt fv.size = none` says that reading at end of file
yields nothing. -/
theorem c3_rotation_detection (fv : FileView) (s : TailState)
    (hino : fv.ino ≠ s.inode) (heof : fv.readAt fv.size = none) :
    (pollCycle true fv s).2.1 = [WEvent.Rotated]
    ∧ (pollCycle true fv s).1.cursor = fv.size
    ∧ (pollCycle true fv s).1.inode = fv.ino
    ∧ (pollCycle true fv s).1.rotations_detected = s.rotations_detected + 1 := by
  have hb : (fv.ino != s.inode) = true := by simpa using hino
  unfold pollCycle
  simp only [hb, Bool.and_self, if_pos, Bool.true_and, if_true]
  unfold read_new_data
  simp [heof]

/-- Witness for C3: a concrete rotated file view. -/
theorem c3_rotation_detection_witness :
    (pollCycle true ⟨2, 7, fun _ => none⟩
        ⟨1, 3, "WARN".toList, 0, ⟨0, 0, 0, 0⟩, 0⟩).2.1 = [WEvent.Rotated]
    ∧ (pollCycle true ⟨2, 7, fun _ => none⟩
        ⟨1, 3, "WARN".toList, 0, ⟨0, 0, 0, 0⟩, 0⟩).1.cursor = 7
    ∧ (pollCycle true ⟨2, 7, fun _ => none⟩
        ⟨1, 3, "WARN".toList, 0, ⟨0, 0, 0, 0⟩, 0⟩).1.inode = 2
    ∧ (pollCycle true ⟨2, 7, fun _ => none⟩
        ⟨1, 3, "WARN".toList, 0, ⟨0, 0, 0, 0⟩, 0⟩).1.rotations_detected = 0 + 1 :=
  c3_rotation_detection ⟨2, 7, fun _ => none⟩ ⟨1, 3, "WARN".toList, 0, ⟨0, 0, 0, 0⟩, 0⟩
    (by decide) rfl

/-- C4: when the file identity is unchanged and the current size is
smaller than the cursor (truncation), the poll cycle emits exactly one
Truncated event, and the read of that very cycle starts from offset 0;
when the truncated file has nothing to read, the cursor ends at 0 and the
trace is exactly one Truncated event. -/
theorem c4_truncation_detection (follow : Bool) (fv : FileView) (s : TailState)
    (hino : fv.ino = s.inode) (hsz : fv.size < s.cursor) :
    (pollCycle follow fv s).2.1.count WEvent.Truncated = 1
    ∧ (pollCycle follow fv s).2.2 = 0
    ∧ (fv.readAt 0 = none →
        (pollCycle follow fv s).1.cursor = 0
        ∧ (pollCycle follow fv s).2.1 = [WEvent.Truncated]) := by
  have hb : (fv.ino != s.inode) = false := by simp [hino]
  unfold pollCycle
  simp only [hb, Bool.and_false, if_neg, Bool.false_eq_true, not_false_eq_true,
    List.nil_append]
  unfold read_new_data
  rw [if_pos hsz]
  rcases h0 : fv.readAt 0 with _ | lc
  · simp
  · simp [process_line_no_truncated, h0]

/-- Witness for C4: a concrete truncated file view. -/
theorem c4_truncation_detection_witness :
    (pollCycle true ⟨1, 2, fun _ => none⟩
        ⟨1, 5, "WARN".toList, 0, ⟨0, 0, 0, 0⟩, 0⟩).2.1.count WEvent.Truncated = 1
    ∧ (pollCycle true ⟨1, 2, fun _ => none⟩
        ⟨1, 5, "WARN".toList, 0, ⟨0, 0, 0, 0⟩, 0⟩).2.2 = 0
    ∧ ((fun _ => (none : Option (List Char × Nat))) 0 = none →
        (pollCycle true ⟨1, 2, fun _ => none⟩
            ⟨1, 5, "WARN".toList, 0, ⟨0, 0, 0, 0⟩, 0⟩).1.cursor = 0
        ∧ (pollCycle true ⟨1, 2, fun _ => none⟩
            ⟨1, 5, "WARN".toList, 0, ⟨0, 0, 0, 0⟩, 0⟩).2.1 = [WEvent.Truncated]) :=
  c4_truncation_detection true ⟨1, 2, fun _ => none⟩
    ⟨1, 5, "WARN".toList, 0, ⟨0, 0, 0, 0⟩, 0⟩ rfl (by decide)

end Logwatcher

namespace Logwatcher

/-! ## WatcherConfig validation (src/logwatcher/watcher.py) -/

/-- `WatcherConfig` dataclass fields.  The Python floats only ever face
order comparisons here, so they are modelled as rationals; `max_retries`
is a Python int and may be negative before validation. -/
structure WatcherConfig where
  check_interval : ℚ
  follow_rotation : Bool
  encoding : List Char
  buffer_size : Int
  restart_on_error : Bool
  max_retries : Int
  retry_delay : ℚ
  collect_stats : Bool

/-- The dataclass defaults of `WatcherConfig`. -/
def defaultWatcherConfig : WatcherConfig :=
  { check_interval := 1/10, follow_rotation := true, encoding := "utf-8".toList,
    buffer_size := 4096, restart_on_error := true, max_retries := 3,
    retry_delay := 1/10, collect_stats := true }

/-- `WatcherConfig.validate`: raises ValueError (modelled as `Except.error`
with the message) on non-positive `check_interval`, negative `max_retries`
or negative `retry_delay`. -/
def WatcherConfig.validate (c : WatcherConfig) : Except (List Char) Unit :=
  if c.check_interval ≤ 0 then Except.error "check_interval must be positive".toList
  else if c.max_retries < 0 then Except.error "max_retries can\x27t be negative".toList
  else if c.retry_delay < 0 then Except.error "retry_delay can\x27t be negative".toList
  else Except.ok ()

def exceptOk {ε α : Type} : Except ε α → Bool
  | Except.ok _ => true
  | Except.error _ => false

/-- The fields `LogWatcher.__init__` sets before the watcher runs. -/
structure LogWatcherObj where
  filename : List Char
  min_level : List Char
  use_colors : Bool
  config : WatcherConfig
  state : WatcherState
  retry_count : Nat

/-- `LogWatcher.__init__`: take the given config or the default, then call
`config.validate()`; a ValueError from `validate` propagates out of the
constructor (`Except.error`), otherwise the watcher starts out STOPPED
with a zero retry counter. -/
def LogWatcher_init (filename min_level : List Char) (use_colors : Bool)
    (config : Option WatcherConfig) : Except (List Char) LogWatcherObj :=
  let cfg := config.getD defaultWatcherConfig
  match cfg.validate with
  | Except.error e => Except.error e
  | Except.ok _ =>
    Except.ok { filename := filename, min_level := min_level,
                use_colors := use_colors, config := cfg,
                state := WatcherState.STOPPED, retry_count := 0 }

/-- C8: constructing a LogWatcher succeeds exactly when the configuration
is valid — `check_interval > 0`, `max_retries ≥ 0` and `retry_delay ≥ 0`;
an invalid configuration makes the constructor itself raise (ValueError
from `validate`), so invalid values never reach the polling code, and a
valid configuration never raises. -/
theorem c8_invalid_config_fails_construction (fn ml : List Char) (uc : Bool)
    (cfg : WatcherConfig) :
    exceptOk (LogWatcher_init fn ml uc (some cfg)) = true
      ↔ (0 < cfg.check_interval ∧ 0 ≤ cfg.max_retries ∧ 0 ≤ cfg.retry_delay) := by
  unfold LogWatcher_init WatcherConfig.validate
  simp only [Option.getD]
  split_ifs with h1 h2 h3
  · simp only [exceptOk]
    constructor
    · intro h; exact absurd h (by simp)
    · intro h; exact absurd h1 (not_le.mpr h.1)
  · simp only [exceptOk]
    constructor
    · intro h; exact absurd h (by simp)
    · intro h; exact absurd h2 (not_lt.mpr h.2.1)
  · simp only [exceptOk]
    constructor
    · intro h; exact absurd h (by simp)
    · intro h; exact absurd h3 (not_lt.mpr h.2.2)
  · simp only [exceptOk, true_iff]
    exact ⟨not_le.mp h1, not_lt.mp h2, not_lt.mp h3⟩

end Logwatcher

namespace Logwatcher

/-! ## get_stats: shallow copy vs deep copy

The Python `self.stats` dicts are mutable objects; `LogWatcher.get_stats`
returns `self.stats.copy()` (a SHALLOW copy: the nested `lines_by_level`
dict is the same object) while `StatsCollector.get_stats` (models.py)
returns `copy.deepcopy(self.stats)`.  To state the difference, the nested
per-severity dict lives in an explicit address store: a stats object holds
the ADDRESS of its `lines_by_level` dict, `copy.deepcopy` allocates a
fresh address holding an equal value, and `dict.copy()` duplicates the
top-level fields but keeps the same nested address. -/

structure Store where
  cells : Nat → LevelCounts
  nextAddr : Nat

/-- Mutating a nested dict object in place. -/
def Store.write (st : Store) (a : Nat) (v : LevelCounts) : Store :=
  { st with cells := fun i => if i = a then v else st.cells i }

/-- The `self.stats["log_entries"]` part of `StatsCollector` that the
deep-copy claim is about: the total and the address of the nested
`lines_by_level` dict (`by_source` and the system-event fields behave the
same way and are omitted). -/
structure CollectorStats where
  total_lines : Nat
  lines_by_level : Nat

/-- `StatsCollector.get_stats`: `copy.deepcopy(self.stats)` — the snapshot
holds a FRESH address carrying a copy of the nested dict contents.
(The derived `duration_seconds` field is wall-clock and not modelled.) -/
def StatsCollector_get_stats (store : Store) (c : CollectorStats) :
    Store × CollectorStats :=
  ({ cells := fun i => if i = store.nextAddr then store.cells c.lines_by_level
                       else store.cells i,
     nextAddr := store.nextAddr + 1 },
   { total_lines := c.total_lines, lines_by_level := store.nextAddr })

/-- `StatsCollector._handle_log_entry`: bump the total and mutate the
nested `lines_by_level` dict in place through its address. -/
def StatsCollector_handle_log_entry (store : Store) (c : CollectorStats)
    (level : List Char) : Store × CollectorStats :=
  (store.write c.lines_by_level ((store.cells c.lines_by_level).bump level),
   { c with total_lines := c.total_lines + 1 })

/-- The `self.stats` dict of `LogWatcher`: value fields plus the address
of the nested `lines_by_level` dict (time fields not modelled). -/
structure WatcherStats where
  total_lines : Nat
  lines_by_level : Nat
  rotations_detected : Nat
  errors_occurred : Nat

/-- The dict `LogWatcher.get_stats` returns: `self.stats.copy()` with the
computed `state` and `config` entries added.  `dict.copy()` is shallow, so
the `lines_by_level` entry is the SAME object (same address). -/
structure WatcherStatsSnap where
  total_lines : Nat
  lines_by_level : Nat
  rotations_detected : Nat
  errors_occurred : Nat
  state : List Char

def LogWatcher_get_stats (w : WatcherStats) (st : WatcherState) : WatcherStatsSnap :=
  { total_lines := w.total_lines, lines_by_level := w.lines_by_level,
    rotations_detected := w.rotations_detected,
    errors_occurred := w.errors_occurred, state := st.value }

/-- `LogWatcher._update_stats`: bump the total and mutate the nested
`lines_by_level` dict in place through its address. -/
def LogWatcher_update_stats (store : Store) (w : WatcherStats)
    (level : List Char) : Store × WatcherStats :=
  (store.write w.lines_by_level ((store.cells w.lines_by_level).bump level),
   { w with total_lines := w.total_lines + 1 })

def demoStore : Store := { cells := fun _ => ⟨0, 0, 0, 0⟩, nextAddr := 1 }

def demoWatcherStats : WatcherStats := ⟨0, 0, 0, 0⟩

def demoCollectorStats : CollectorStats := ⟨0, 0⟩

def demoCounts : LevelCounts := ⟨99, 0, 0, 0⟩

end Logwatcher

namespace Logwatcher

/-! ## Theorems for claim C9 -/

/-- C9 counterexample: `LogWatcher.get_stats` is a shallow copy, not a
deep copy.  On a concrete statistics state, the snapshot holds the same
nested `lines_by_level` object as the internal stats; writing through the
snapshot changes what the internal stats read, and a subsequent
`_update_stats` ingestion changes what the previously returned snapshot
reads. -/
theorem c9_counterexample :
    (LogWatcher_get_stats demoWatcherStats WatcherState.RUNNING).lines_by_level
      = demoWatcherStats.lines_by_level
    ∧ (demoStore.write
          (LogWatcher_get_stats demoWatcherStats WatcherState.RUNNING).lines_by_level
          demoCounts).cells demoWatcherStats.lines_by_level
        ≠ demoStore.cells demoWatcherStats.lines_by_level
    ∧ ((LogWatcher_update_stats demoStore demoWatcherStats "ERROR".toList).1).cells
          (LogWatcher_get_stats demoWatcherStats WatcherState.RUNNING).lines_by_level
        ≠ demoStore.cells
          (LogWatcher_get_stats demoWatcherStats WatcherState.RUNNING).lines_by_level := by
  refine ⟨rfl, by decide, by decide⟩

/-- C9 (amended): `StatsCollector.get_stats` (models.py) is a deep copy —
its snapshot holds a fresh nested mapping with equal contents, mutating
the snapshot leaves the internal statistics unchanged, and subsequent
ingestion leaves the snapshot unchanged.  `LogWatcher.get_stats`
(watcher.py), however, copies only the top level: the snapshot shares the
nested `lines_by_level` mapping with the internal statistics.  The
hypothesis says the internal nested dict is an already-allocated object. -/
theorem c9_get_stats_copy_depth (w : WatcherStats) (st : WatcherState)
    (store : Store) (c : CollectorStats)
    (hlt : c.lines_by_level < store.nextAddr) :
    (LogWatcher_get_stats w st).lines_by_level = w.lines_by_level
    ∧ (StatsCollector_get_stats store c).2.lines_by_level ≠ c.lines_by_level
    ∧ (StatsCollector_get_stats store c).1.cells
        (StatsCollector_get_stats store c).2.lines_by_level
        = store.cells c.lines_by_level
    ∧ (∀ v, ((StatsCollector_get_stats store c).1.write
            (StatsCollector_get_stats store c).2.lines_by_level v).cells
            c.lines_by_level
          = (StatsCollector_get_stats store c).1.cells c.lines_by_level)
    ∧ (∀ level, ((StatsCollector_handle_log_entry
            (StatsCollector_get_stats store c).1 c level).1).cells
            (StatsCollector_get_stats store c).2.lines_by_level
          = (StatsCollector_get_stats store c).1.cells
            (StatsCollector_get_stats store c).2.lines_by_level) := by
  have hne : c.lines_by_level ≠ store.nextAddr := by omega
  have hne2 : store.nextAddr ≠ c.lines_by_level := fun h => hne h.symm
  refine ⟨rfl, ?_, ?_, ?_, ?_⟩
  · simpa [StatsCollector_get_stats] using hne2
  · simp [StatsCollector_get_stats]
  · intro v
    simp [StatsCollector_get_stats, Store.write, hne]
  · intro level
    simp [StatsCollector_get_stats, StatsCollector_handle_log_entry,
      Store.write, hne2]

/-- Witness for C9 (amended) at a concrete store and stats state. -/
theorem c9_get_stats_copy_depth_witness :
    (LogWatcher_get_stats demoWatcherStats WatcherState.RUNNING).lines_by_level
      = demoWatcherStats.lines_by_level
    ∧ (StatsCollector_get_stats demoStore demoCollectorStats).2.lines_by_level
        ≠ demoCollectorStats.lines_by_level
    ∧ (StatsCollector_get_stats demoStore demoCollectorStats).1.cells
        (StatsCollector_get_stats demoStore demoCollectorStats).2.lines_by_level
        = demoStore.cells demoCollectorStats.lines_by_level
    ∧ (∀ v, ((StatsCollector_get_stats demoStore demoCollectorStats).1.write
            (StatsCollector_get_stats demoStore demoCollectorStats).2.lines_by_level v).cells
            demoCollectorStats.lines_by_level
          = (StatsCollector_get_stats demoStore demoCollectorStats).1.cells
            demoCollectorStats.lines_by_level)
    ∧ (∀ level, ((StatsCollector_handle_log_entry
            (StatsCollector_get_stats demoStore demoCollectorStats).1
            demoCollectorStats level).1).cells
            (StatsCollector_get_stats demoStore demoCollectorStats).2.lines_by_level
          = (StatsCollector_get_stats demoStore demoCollectorStats).1.cells
            (StatsCollector_get_stats demoStore demoCollectorStats).2.lines_by_level) :=
  c9_get_stats_copy_depth demoWatcherStats WatcherState.RUNNING
    demoStore demoCollectorStats (by decide)

end Logwatcher
